import Mathlib

/-!
Verification development for the Web3ReactHooks repository.

The two pieces of logic specified at design level are embedded here:

* the gas-fee estimation engine (`useGasEstimator.tsx`, `estimateGas`);
* the transaction-status monitor (`useTransactionStatus`,
  `getTransactionStatus` plus the notification effect).

`ethers` BigNumber values are arbitrary-precision integers; all fee values
in the code are non-negative, so they are modelled as `Nat`.  A BigNumber
is a JavaScript object and hence truthy even when its value is zero; the
distinction between "field absent" (falsy `undefined`) and "value zero"
(truthy object) therefore matters and is modelled with `Option Nat`.
-/

namespace Web3Hooks

/-- A block as returned by `provider.getBlock`.  `baseFeePerGas` is absent
(`none`) on pre-fee-market chains; `some v` is a BigNumber object (truthy
even when `v = 0`). -/
structure Block where
  number : Nat
  baseFeePerGas : Option Nat
  deriving Repr, DecidableEq

/-- Confidence levels of a fee snapshot. -/
structure Confidence where
  low : Nat
  medium : Nat
  high : Nat
  deriving Repr, DecidableEq

/-- Historical trend fields of a fee snapshot. -/
structure Trends where
  average : Nat
  median : Nat
  percentile90 : Nat
  deriving Repr, DecidableEq

/-- Fixed confirmation-time tiers (seconds); constants in the code. -/
structure TimeEstimates where
  likely : Nat
  fast : Nat
  urgent : Nat
  deriving Repr, DecidableEq

/-- The `GasEstimation` snapshot produced by one estimation cycle. -/
structure GasEstimation where
  baseFee : Nat
  maxFeePerGas : Nat
  maxPriorityFeePerGas : Nat
  gasLimit : Nat
  estimatedCost : Nat
  confidence : Confidence
  historicalTrends : Trends
  timeEstimates : TimeEstimates
  deriving Repr, DecidableEq

/-- The React state owned by `useGasEstimator`:
`loading`, `error`, `estimation`, `blockHistory`. -/
structure EstimatorState where
  loading : Bool
  error : Option String
  estimation : Option GasEstimation
  blockHistory : List Block
  deriving Repr, DecidableEq

/-- Initial hook state: `useState(true)` for `loading`, `null` error and
estimation, empty history. -/
def initialEstimatorState : EstimatorState :=
  { loading := true, error := none, estimation := none, blockHistory := [] }

/-- The externally observable results of one run of `estimateGas`:
the provider replies (or throws) that the cycle consumes.

* `latest`: result of `await provider.getBlock('latest')`; `.error msg`
  models a throw (caught by the outer `try`).
* `historical`: one entry per `provider.getBlock(latestBlockNumber - i)`;
  `none` models a fetch whose promise was rejected and mapped to `null`
  by `.catch(() => null)`.
* `txRequested`: whether a `transaction` argument was supplied.
* `estimateGasResult`: result of `provider.estimateGas(transaction)`;
  `none` models a throw (caught by the inner `try`, fallback 21000). -/
structure CycleInput where
  latest : Except String Block
  historical : List (Option Block)
  txRequested : Bool
  estimateGasResult : Option Nat
  deriving Repr

/-- Event observable by the caller of one cycle: `onSuccess` with the
snapshot, `onError` (after `new Error(err.message || ...)`), or the silent
early return when no provider is configured. -/
inductive CycleEvent
  | succeeded (e : GasEstimation)
  | failed (msg : String)
  | skipped
  deriving Repr, DecidableEq

/-- `new Error(err.message || 'Failed to estimate gas')`: an empty thrown
message falls back to the default text. -/
def cycleErrorMessage (msg : String) : String :=
  if msg = "" then "Failed to estimate gas" else msg

/-- `historicalFees.filter(block => block && block.baseFeePerGas)`:
keep fetches that returned a block whose `baseFeePerGas` field is present
(a BigNumber object is truthy even at value zero). -/
def validHistoricalBlocks (hist : List (Option Block)) : List Block :=
  (hist.filterMap id).filter (fun b => b.baseFeePerGas.isSome)

/-- `validHistoricalBlocks.map(b => b.baseFeePerGas).filter(fee => fee && !fee.isZero())`:
the present base fees with zero values removed. -/
def rawHistoricalBaseFees (hist : List (Option Block)) : List Nat :=
  ((validHistoricalBlocks hist).filterMap (fun b => b.baseFeePerGas)).filter
    (fun fee => fee ≠ 0)

/-- Step seeding the sample: `if (historicalBaseFees.length === 0)
historicalBaseFees.push(baseFee)`. -/
def cycleSample (baseFee : Nat) (hist : List (Option Block)) : List Nat :=
  let s := rawHistoricalBaseFees hist
  if s.isEmpty then [baseFee] else s

/-- The comparator passed to `Array.prototype.sort`:
`(a, b) => a.sub(b).isNegative() ? -1 : 1`.  It returns `-1` exactly when
`a < b` and `1` otherwise — it never returns `0`, even on ties. -/
def jsFeeCompare (a b : Nat) : Int :=
  if a < b then -1 else 1

/-- `[...historicalBaseFees].sort(jsFeeCompare)` on the fee values.  The
sort places `a` before `b` exactly when the comparator says `a` comes
first (`jsFeeCompare a b < 0`, i.e. `a < b`).  Because the comparator
never returns `0`, ECMAScript leaves the relative order of equal-valued
elements implementation-defined; on the `Nat` fee values themselves the
tie order is invisible (equal values are identical), so the value-level
result below is the one every resolution produces: the ascending
multiset of the sample. -/
def sortFees (l : List Nat) : List Nat :=
  List.insertionSort (fun a b => jsFeeCompare a b < 0) l

/-- `Math.floor(sortedFees.length * 0.9)`.  For every sample length `n`
below `2 ^ 52` the double product `n * 0.9` never crosses an integer
boundary (`0.9` rounds up, so the product sits in `[9n/10, 9n/10 + 1)`),
hence the floor equals `⌊9 n / 10⌋`. -/
def percentileIndex (n : Nat) : Nat :=
  9 * n / 10

/-- `transaction ? await provider.estimateGas(transaction) : 21000`,
with the inner `try/catch` falling back to `BigNumber.from(21000)`. -/
def resolveGasLimit (txRequested : Bool) (res : Option Nat) : Nat :=
  if txRequested then res.getD 21000 else 21000

/-- The snapshot computed on the success path of `estimateGas`, given the
configured `priorityFeeBump`, the current `baseFee`
(`currentBlock.baseFeePerGas || 0`), the historical fetch results and the
resolved gas limit.  `sorted[i] || baseFee` falls back only when the index
is out of range (a zero BigNumber is truthy), which `List.getD` models. -/
def computeEstimation (bump baseFee : Nat) (hist : List (Option Block))
    (gasLimit : Nat) : GasEstimation :=
  let maxPriorityFeePerGas := bump * 10 ^ 9
  let maxFeePerGas := baseFee * 2 + maxPriorityFeePerGas
  let sample := cycleSample baseFee hist
  let sorted := sortFees sample
  let n := sorted.length
  { baseFee := baseFee
    maxFeePerGas := maxFeePerGas
    maxPriorityFeePerGas := maxPriorityFeePerGas
    gasLimit := gasLimit
    estimatedCost := maxFeePerGas * gasLimit
    confidence :=
      { low := sorted.getD 0 baseFee
        medium := sorted.getD (n / 2) baseFee
        high := sorted.getD (n - 1) baseFee }
    historicalTrends :=
      { average := if sample.length > 0 then sample.sum / sample.length else baseFee
        median := sorted.getD (n / 2) baseFee
        percentile90 := sorted.getD (percentileIndex n) baseFee }
    timeEstimates := { likely := 15, fast := 30, urgent := 60 } }

/-- One complete run of `estimateGas`.

* No provider: set the error, clear `loading`, return (no callback).
* `getBlock('latest')` throws: the outer `catch` records the error and
  calls `onError`; `finally` clears `loading`; the previous snapshot and
  history are untouched.
* Otherwise the cycle cannot throw again (every later fallible call is
  individually caught): the new history is merged and truncated to 100,
  the snapshot is emitted, the error cleared and `onSuccess` invoked. -/
def runCycle (bump : Nat) (providerPresent : Bool) (inp : CycleInput)
    (prev : EstimatorState) : EstimatorState × CycleEvent :=
  if providerPresent then
    match inp.latest with
    | .error msg =>
        ({ prev with error := some (cycleErrorMessage msg), loading := false },
         .failed (cycleErrorMessage msg))
    | .ok currentBlock =>
        let baseFee := currentBlock.baseFeePerGas.getD 0
        let newHistory := (validHistoricalBlocks inp.historical ++ prev.blockHistory).take 100
        let gasLimit := resolveGasLimit inp.txRequested inp.estimateGasResult
        let e := computeEstimation bump baseFee inp.historical gasLimit
        ({ loading := false, error := none, estimation := some e,
           blockHistory := newHistory },
         .succeeded e)
  else
    ({ prev with error := some "Provider not available", loading := false },
     .skipped)

/-- The mount effect of `useGasEstimator`: `if (provider)` it invokes
`estimateGas()` immediately and schedules the refresh timer; with no
provider it does nothing, so no estimation cycle starts and the initial
state — in particular `loading = true` from `useState(true)` — is left
in place. -/
def mountEffectRunsCycle (providerPresent : Bool) : Bool :=
  providerPresent

/-! ## Transaction monitor (`useTransactionStatus`) -/

/-- Status strings used by `useTransactionStatus`. -/
inductive TxStatus
  | pending
  | confirming
  | confirmed
  | failed
  | notFound
  | error
  deriving Repr, DecidableEq

/-- A transaction receipt as used by the monitor: `status` is `0` or `1`,
`blockNumber` the block the transaction landed in. -/
structure Receipt where
  status : Nat
  blockNumber : Int
  gasUsed : Nat
  effectiveGasPrice : Nat
  deriving Repr, DecidableEq

/-- `getGasPriceRecommendations` values.  The code formats
`maxFeePerGas * 80 / 100`, `maxFeePerGas`, `maxFeePerGas * 120 / 100`
(BigNumber integer arithmetic) as gwei strings; the underlying wei
integers are kept here. -/
structure GasPriceRecommendations where
  slow : Nat
  standard : Nat
  fast : Nat
  deriving Repr, DecidableEq

/-- The `TransactionInfo` state held by the hook.  `history` entries are
`(status, Date.now())` pairs appended at the end. -/
structure TransactionInfo where
  status : TxStatus
  confirmations : Int
  gasUsed : Option Nat
  effectiveGasPrice : Option Nat
  error : Option String
  history : List (TxStatus × Nat)
  mempoolPosition : Option Nat
  gasPriceRecommendations : Option GasPriceRecommendations
  deriving Repr, DecidableEq

/-- Initial `useState` value of the hook. -/
def initialTransactionInfo : TransactionInfo :=
  { status := .pending, confirmations := 0, gasUsed := none,
    effectiveGasPrice := none, error := none, history := [],
    mempoolPosition := none, gasPriceRecommendations := none }

/-- Configuration options of `useTransactionStatus` with their defaults.
The polling interval is a JavaScript number that becomes fractional under
the `* 1.5` backoff, so it is modelled in `ℚ`. -/
structure MonitorConfig where
  initialPollingInterval : ℚ := 5000
  requiredConfirmations : Int := 1
  deriving Repr, DecidableEq

/-- Network congestion classification returned by
`getNetworkCongestion`. -/
inductive Congestion
  | high
  | normal
  | unknown
  deriving Repr, DecidableEq

/-- The provider replies (or throws) consumed by one run of
`getTransactionStatus`.

* `tx`: `provider.getTransaction(txHash)`; `.ok found` tells whether the
  transaction exists, `.error` models a throw (outer `catch`).
* `receipt`: `provider.getTransactionReceipt(txHash)`.
* `blockNumber`: `provider.getBlockNumber()` (awaited only when a receipt
  exists).
* `congestionFee`: the `getFeeData` call inside `getNetworkCongestion`;
  `none` models a throw (caught there), `some none` a null
  `maxFeePerGas`, `some (some f)` the value in wei.
* `recsFee`: the separate `getFeeData` call inside
  `getGasPriceRecommendations`, same encoding.
* `mempool`: result of `getMempoolPosition` (which catches internally and
  yields `null` on failure or a missing entry).
* `now`: the `Date.now()` timestamp of this poll. -/
structure PollCycle where
  tx : Except String Bool
  receipt : Except String (Option Receipt)
  blockNumber : Except String Int
  congestionFee : Option (Option Nat)
  recsFee : Option (Option Nat)
  mempool : Option Nat
  now : Nat
  deriving Repr

/-- `getNetworkCongestion`: formats `maxFeePerGas` as a gwei decimal and
compares `parseFloat(...) > 100`.  For an integer wei value `f` the
decimal `f / 10 ^ 9` is exact and `parseFloat` cannot cross the `100`
boundary (the nearest crossing would need `|f - 10 ^ 11| < 1`), so the
test is exactly `f > 100 * 10 ^ 9`; a null fee yields the string `'0'`
(normal) and a `getFeeData` throw yields `'unknown'`. -/
def getNetworkCongestion (fee : Option (Option Nat)) : Congestion :=
  match fee with
  | none => .unknown
  | some none => .normal
  | some (some f) => if 100 * 10 ^ 9 < f then .high else .normal

/-- `getGasPriceRecommendations`: on a `getFeeData` throw the helper
returns `null`; a null `maxFeePerGas` yields `'0'` strings. -/
def getGasPriceRecommendations (fee : Option (Option Nat)) :
    Option GasPriceRecommendations :=
  match fee with
  | none => none
  | some f =>
      some { slow := f.getD 0 * 80 / 100, standard := f.getD 0,
             fast := f.getD 0 * 120 / 100 }

/-- `setPollingInterval(prev => congestion === 'high'
? Math.min(prev * 1.5, 30000) : initialPollingInterval)`. -/
def nextPollingInterval (c : Congestion) (prevInterval : ℚ)
    (initialInterval : ℚ) : ℚ :=
  if c = .high then min (prevInterval * (3 / 2)) 30000 else initialInterval

/-- The state update of the outer `catch` of `getTransactionStatus`:
status `error`, the thrown message recorded, history appended; every
other field (including `mempoolPosition`) is spread from `prev`. -/
def errorPoll (prev : TransactionInfo) (msg : String) (now : Nat) :
    TransactionInfo :=
  { prev with status := .error, error := some msg,
              history := prev.history ++ [(.error, now)] }

/-- One run of `getTransactionStatus`, returning the new
`transactionInfo` and the new `pollingInterval`.

* `getTransaction` throws → outer `catch` (interval untouched).
* transaction absent → status `not found`, early `return` (the congestion
  step and interval update are skipped; `mempoolPosition` is spread from
  `prev`, not cleared).
* receipt present → `confirmations = currentBlock - receipt.blockNumber
  + 1`, status classified, `gasUsed`/`effectiveGasPrice` populated,
  `mempoolPosition` cleared; then the congestion step adjusts the
  interval.
* receipt absent → status `pending`, mempool position and gas-price
  recommendations refreshed; then the congestion step adjusts the
  interval. -/
def getTransactionStatus (cfg : MonitorConfig) (inp : PollCycle)
    (prev : TransactionInfo) (prevInterval : ℚ) : TransactionInfo × ℚ :=
  match inp.tx with
  | .error msg => (errorPoll prev msg inp.now, prevInterval)
  | .ok false =>
      ({ prev with status := .notFound, error := some "Transaction not found",
                   history := prev.history ++ [(.notFound, inp.now)] },
       prevInterval)
  | .ok true =>
      match inp.receipt with
      | .error msg => (errorPoll prev msg inp.now, prevInterval)
      | .ok (some receipt) =>
          match inp.blockNumber with
          | .error msg => (errorPoll prev msg inp.now, prevInterval)
          | .ok currentBlock =>
              let confirmations := currentBlock - receipt.blockNumber + 1
              let newStatus : TxStatus :=
                if receipt.status = 1 then
                  if cfg.requiredConfirmations ≤ confirmations then .confirmed
                  else .confirming
                else .failed
              ({ prev with status := newStatus, confirmations := confirmations,
                           gasUsed := some receipt.gasUsed,
                           effectiveGasPrice := some receipt.effectiveGasPrice,
                           error := none,
                           history := prev.history ++ [(newStatus, inp.now)],
                           mempoolPosition := none },
               nextPollingInterval (getNetworkCongestion inp.congestionFee)
                 prevInterval cfg.initialPollingInterval)
      | .ok none =>
          ({ prev with status := .pending,
                       mempoolPosition := inp.mempool,
                       gasPriceRecommendations :=
                         getGasPriceRecommendations inp.recsFee,
                       history := prev.history ++ [(.pending, inp.now)] },
           nextPollingInterval (getNetworkCongestion inp.congestionFee)
             prevInterval cfg.initialPollingInterval)

/-- Notifications fired by the reconciliation `useEffect`:
`statusChange` carries `(new, old)` when the status differs from the
previous poll's, `confirmation` is true whenever the new status is
exactly `confirmed`, `errorNote` carries the error whenever the new
status is exactly `error` and an error message is present. -/
structure MonitorEvents where
  statusChange : Option (TxStatus × TxStatus)
  confirmation : Bool
  errorNote : Option String
  deriving Repr, DecidableEq

/-- The reconciliation `useEffect` of `useTransactionStatus`.  Every poll
appends to `history`, so `transactionInfo` is a fresh object each poll
and the effect re-runs after every poll.  Returns the fired events and
the updated `prevStatusRef`. -/
def pollNotifications (prevStatus : TxStatus) (info : TransactionInfo) :
    MonitorEvents × TxStatus :=
  ({ statusChange :=
       if info.status ≠ prevStatus then some (info.status, prevStatus)
       else none
     confirmation := info.status = .confirmed
     errorNote := if info.status = .error then info.error else none },
   info.status)

/-- The full hook state between polls: the `transactionInfo` state, the
`pollingInterval` state and the `prevStatusRef` ref. -/
structure MonitorState where
  info : TransactionInfo
  interval : ℚ
  prevStatus : TxStatus
  deriving Repr

/-- Hook state at mount. -/
def initialMonitorState (cfg : MonitorConfig) : MonitorState :=
  { info := initialTransactionInfo, interval := cfg.initialPollingInterval,
    prevStatus := .pending }

/-- One poll followed by the notification effect. -/
def monitorStep (cfg : MonitorConfig) (inp : PollCycle) (s : MonitorState) :
    MonitorState × MonitorEvents :=
  let r := getTransactionStatus cfg inp s.info s.interval
  let n := pollNotifications s.prevStatus r.1
  ({ info := r.1, interval := r.2, prevStatus := n.2 }, n.1)

/-- Run a sequence of polls, collecting the events of each. -/
def runPolls (cfg : MonitorConfig) (inps : List PollCycle)
    (s : MonitorState) : MonitorState × List MonitorEvents :=
  match inps with
  | [] => (s, [])
  | i :: rest =>
      let r := monitorStep cfg i s
      let t := runPolls cfg rest r.1
      (t.1, r.2 :: t.2)

/-- Number of polls on which the confirmation notification fired. -/
def confirmationCount (es : List MonitorEvents) : Nat :=
  (es.filter (fun e => e.confirmation)).length

/-- A poll that finds the transaction and whose taken branch completes
without an exception (the only remaining throw point, `getBlockNumber`,
is awaited only when a receipt exists). -/
def pollFindsAndCompletes (inp : PollCycle) : Prop :=
  inp.tx = .ok true ∧
  match inp.receipt with
  | .error _ => False
  | .ok none => True
  | .ok (some _) => ∃ bn, inp.blockNumber = .ok bn

/-- The default hook configuration (`initialPollingInterval = 5000`,
`requiredConfirmations = 1`). -/
def defaultMonitorConfig : MonitorConfig := {}

/-- A poll whose receipt (status 1, block 10) is three blocks deep at
current block 12: classified `confirmed` under the default config. -/
def confirmedPoll : PollCycle :=
  ⟨.ok true, .ok (some ⟨1, 10, 21000, 5⟩), .ok 12, some none, some none,
    none, 0⟩

/-- A receiptless poll that sees the transaction at mempool position 3. -/
def pendingMempoolPoll : PollCycle :=
  ⟨.ok true, .ok none, .ok 0, some none, some none, some 3, 1⟩

/-- A poll on which the provider no longer finds the transaction. -/
def vanishedPoll : PollCycle :=
  ⟨.ok false, .ok none, .ok 0, none, none, none, 2⟩

/-! ## Theorems -/

/-- Dropping the failed (`none`) fetches does not change the surviving
blocks. -/
theorem filterMap_id_of_filter_isSome (l : List (Option Block)) :
    (l.filter (fun o => o.isSome)).filterMap id = l.filterMap id := by
  induction l with
  | nil => rfl
  | cons h t ih => cases h <;> simp [ih]

/-- `validHistoricalBlocks` ignores failed fetches. -/
theorem validHistoricalBlocks_filter_isSome (l : List (Option Block)) :
    validHistoricalBlocks (l.filter (fun o => o.isSome)) =
      validHistoricalBlocks l := by
  unfold validHistoricalBlocks
  rw [filterMap_id_of_filter_isSome]

/-- `computeEstimation` ignores failed fetches. -/
theorem computeEstimation_filter_isSome (bump baseFee gasLimit : Nat)
    (l : List (Option Block)) :
    computeEstimation bump baseFee (l.filter (fun o => o.isSome)) gasLimit =
      computeEstimation bump baseFee l gasLimit := by
  unfold computeEstimation cycleSample rawHistoricalBaseFees
  rw [validHistoricalBlocks_filter_isSome]

/-- C10 counterexample: at a mount with no provider configured the mount
effect starts no estimation cycle (the `if (provider)` guard), yet
`loading` is initialized to true by `useState(true)` — so `loading` is
true while no estimation cycle is in flight, refuting "loading is true
only while an estimation cycle is in flight". -/
theorem loading_true_at_providerless_mount :
    mountEffectRunsCycle false = false ∧
    initialEstimatorState.loading = true := by
  decide

/-- C10 amended: after every completed call to `estimateGas` — success,
cycle failure, or the early return when no provider is configured — the
public `loading` flag is false (the `finally` clause, resp. the explicit
`setLoading(false)` on the provider-less path, always clears it).
`loading` is, however, initialized to true at mount while the mount
effect starts a cycle only when a provider is present, so a
provider-less mount keeps `loading` true with no cycle in flight until
some call completes. -/
theorem loading_flag_behaviour (bump : Nat) (providerPresent : Bool)
    (inp : CycleInput) (prev : EstimatorState) :
    (runCycle bump providerPresent inp prev).1.loading = false ∧
    (initialEstimatorState.loading = true ∧
      mountEffectRunsCycle false = false) := by
  refine ⟨?_, rfl, rfl⟩
  cases providerPresent with
  | false => simp [runCycle]
  | true => cases h : inp.latest <;> simp [runCycle, h]

/-- C1: every successful estimation cycle emits its snapshot, and the
snapshot satisfies `maxPriorityFeePerGas = priorityFeeBump * 10^9`,
`maxFeePerGas = baseFee * 2 + maxPriorityFeePerGas` and
`estimatedCost = maxFeePerGas * gasLimit`, exactly, in arbitrary-precision
(`Nat`) arithmetic. -/
theorem gas_estimation_formulas (bump : Nat) (inp : CycleInput)
    (prev : EstimatorState) (e : GasEstimation)
    (h : (runCycle bump true inp prev).2 = .succeeded e) :
    (runCycle bump true inp prev).1.estimation = some e ∧
    e.maxPriorityFeePerGas = bump * 10 ^ 9 ∧
    e.maxFeePerGas = e.baseFee * 2 + e.maxPriorityFeePerGas ∧
    e.estimatedCost = e.maxFeePerGas * e.gasLimit := by
  cases hl : inp.latest with
  | error msg => simp [runCycle, hl] at h
  | ok cb =>
    simp only [runCycle, hl, if_true] at h ⊢
    simp only [CycleEvent.succeeded.injEq] at h
    subst h
    refine ⟨rfl, rfl, rfl, rfl⟩

/-- Witness for C1 at `baseFee = 7`, `priorityFeeBump = 10`, default gas
limit. -/
theorem gas_estimation_formulas_witness :
    (runCycle 10 true ⟨.ok ⟨100, some 7⟩, [], false, none⟩
        initialEstimatorState).1.estimation =
      some (computeEstimation 10 7 [] 21000) ∧
    (computeEstimation 10 7 [] 21000).maxPriorityFeePerGas = 10 * 10 ^ 9 ∧
    (computeEstimation 10 7 [] 21000).maxFeePerGas =
      (computeEstimation 10 7 [] 21000).baseFee * 2 +
        (computeEstimation 10 7 [] 21000).maxPriorityFeePerGas ∧
    (computeEstimation 10 7 [] 21000).estimatedCost =
      (computeEstimation 10 7 [] 21000).maxFeePerGas *
        (computeEstimation 10 7 [] 21000).gasLimit :=
  gas_estimation_formulas 10 ⟨.ok ⟨100, some 7⟩, [], false, none⟩
    initialEstimatorState (computeEstimation 10 7 [] 21000) rfl

/-- C3: a cycle whose mandatory latest-block fetch throws records the
error, invokes the error notification, and preserves the previous
snapshot and block history unchanged; conversely a successful cycle
clears any prior error. -/
theorem cycle_failure_preserves_snapshot (bump : Nat) (inp : CycleInput)
    (prev : EstimatorState) :
    (∀ msg, inp.latest = .error msg →
      (runCycle bump true inp prev).1.error = some (cycleErrorMessage msg) ∧
      (runCycle bump true inp prev).2 = .failed (cycleErrorMessage msg) ∧
      (runCycle bump true inp prev).1.estimation = prev.estimation ∧
      (runCycle bump true inp prev).1.blockHistory = prev.blockHistory) ∧
    (∀ e, (runCycle bump true inp prev).2 = .succeeded e →
      (runCycle bump true inp prev).1.error = none) := by
  constructor
  · intro msg h
    simp [runCycle, h]
  · intro e h
    cases hl : inp.latest with
    | error msg => simp [runCycle, hl] at h
    | ok cb => simp [runCycle, hl]

/-- Witness for C3: a failing cycle at a state holding a snapshot keeps
it; a succeeding cycle clears a prior error. -/
theorem cycle_failure_preserves_snapshot_witness :
    ((runCycle 10 true ⟨.error "boom", [], false, none⟩
        ⟨false, none, some (computeEstimation 10 7 [] 21000), []⟩).1.error =
      some (cycleErrorMessage "boom") ∧
     (runCycle 10 true ⟨.error "boom", [], false, none⟩
        ⟨false, none, some (computeEstimation 10 7 [] 21000), []⟩).2 =
      .failed (cycleErrorMessage "boom") ∧
     (runCycle 10 true ⟨.error "boom", [], false, none⟩
        ⟨false, none, some (computeEstimation 10 7 [] 21000), []⟩).1.estimation =
      (⟨false, none, some (computeEstimation 10 7 [] 21000), []⟩ :
        EstimatorState).estimation ∧
     (runCycle 10 true ⟨.error "boom", [], false, none⟩
        ⟨false, none, some (computeEstimation 10 7 [] 21000), []⟩).1.blockHistory =
      (⟨false, none, some (computeEstimation 10 7 [] 21000), []⟩ :
        EstimatorState).blockHistory) ∧
    (runCycle 10 true ⟨.ok ⟨100, some 7⟩, [], false, none⟩
        ⟨false, some "old failure", none, []⟩).1.error = none :=
  ⟨(cycle_failure_preserves_snapshot 10 ⟨.error "boom", [], false, none⟩
      ⟨false, none, some (computeEstimation 10 7 [] 21000), []⟩).1 "boom" rfl,
   (cycle_failure_preserves_snapshot 10 ⟨.ok ⟨100, some 7⟩, [], false, none⟩
      ⟨false, some "old failure", none, []⟩).2
     (computeEstimation 10 7 [] 21000) rfl⟩

/-- C2: with the mandatory latest-block fetch succeeding, the cycle
completes and emits a snapshot for every pattern of historical-fetch
failures, and the failed fetches contribute nothing: the whole run is
unchanged when they are removed from the fetch results. -/
theorem historical_failures_tolerated (bump : Nat) (inp : CycleInput)
    (prev : EstimatorState) (cb : Block) (h : inp.latest = .ok cb) :
    (∃ e, (runCycle bump true inp prev).2 = .succeeded e ∧
          (runCycle bump true inp prev).1.estimation = some e) ∧
    runCycle bump true inp prev =
      runCycle bump true
        { inp with historical := inp.historical.filter (fun o => o.isSome) }
        prev := by
  constructor
  · refine ⟨computeEstimation bump (cb.baseFeePerGas.getD 0) inp.historical
      (resolveGasLimit inp.txRequested inp.estimateGasResult), ?_, ?_⟩ <;>
      simp [runCycle, h]
  · simp [runCycle, h, computeEstimation_filter_isSome,
      validHistoricalBlocks_filter_isSome]

/-- Witness for C2: two of three historical fetches fail; the cycle still
succeeds and equals the run on the surviving fetch alone. -/
theorem historical_failures_tolerated_witness :
    (∃ e, (runCycle 10 true
        ⟨.ok ⟨100, some 7⟩, [none, some ⟨99, some 4⟩, none], false, none⟩
        initialEstimatorState).2 = .succeeded e ∧
      (runCycle 10 true
        ⟨.ok ⟨100, some 7⟩, [none, some ⟨99, some 4⟩, none], false, none⟩
        initialEstimatorState).1.estimation = some e) ∧
    runCycle 10 true
        ⟨.ok ⟨100, some 7⟩, [none, some ⟨99, some 4⟩, none], false, none⟩
        initialEstimatorState =
      runCycle 10 true
        ⟨.ok ⟨100, some 7⟩,
          [none, some ⟨99, some 4⟩, none].filter (fun o => o.isSome),
          false, none⟩
        initialEstimatorState :=
  historical_failures_tolerated 10
    ⟨.ok ⟨100, some 7⟩, [none, some ⟨99, some 4⟩, none], false, none⟩
    initialEstimatorState ⟨100, some 7⟩ rfl

/-- C6: when the nonzero historical base-fee sample is empty (every fetch
failed, or no fetched block carries a nonzero base fee), the sample used
by the cycle is exactly `[baseFee]` and every confidence and trend field
of the emitted snapshot equals the current base fee. -/
theorem degenerate_sample_collapses (bump : Nat) (inp : CycleInput)
    (prev : EstimatorState) (cb : Block) (h1 : inp.latest = .ok cb)
    (h2 : rawHistoricalBaseFees inp.historical = []) :
    cycleSample (cb.baseFeePerGas.getD 0) inp.historical =
      [cb.baseFeePerGas.getD 0] ∧
    ∃ e, (runCycle bump true inp prev).2 = .succeeded e ∧
      e.confidence.low = cb.baseFeePerGas.getD 0 ∧
      e.confidence.medium = cb.baseFeePerGas.getD 0 ∧
      e.confidence.high = cb.baseFeePerGas.getD 0 ∧
      e.historicalTrends.average = cb.baseFeePerGas.getD 0 ∧
      e.historicalTrends.median = cb.baseFeePerGas.getD 0 ∧
      e.historicalTrends.percentile90 = cb.baseFeePerGas.getD 0 := by
  have hs : cycleSample (cb.baseFeePerGas.getD 0) inp.historical =
      [cb.baseFeePerGas.getD 0] := by
    simp [cycleSample, h2]
  refine ⟨hs, computeEstimation bump (cb.baseFeePerGas.getD 0) inp.historical
    (resolveGasLimit inp.txRequested inp.estimateGasResult),
    by simp [runCycle, h1], ?_⟩
  simp [computeEstimation, hs, sortFees, percentileIndex]

/-- Witness for C6: one failed fetch and one zero-fee block; every
confidence and trend field equals the current base fee 7. -/
theorem degenerate_sample_collapses_witness :
    cycleSample ((some 7 : Option Nat).getD 0)
        [none, some ⟨99, some 0⟩] = [(some 7 : Option Nat).getD 0] ∧
    ∃ e, (runCycle 10 true
        ⟨.ok ⟨100, some 7⟩, [none, some ⟨99, some 0⟩], false, none⟩
        initialEstimatorState).2 = .succeeded e ∧
      e.confidence.low = (some 7 : Option Nat).getD 0 ∧
      e.confidence.medium = (some 7 : Option Nat).getD 0 ∧
      e.confidence.high = (some 7 : Option Nat).getD 0 ∧
      e.historicalTrends.average = (some 7 : Option Nat).getD 0 ∧
      e.historicalTrends.median = (some 7 : Option Nat).getD 0 ∧
      e.historicalTrends.percentile90 = (some 7 : Option Nat).getD 0 :=
  degenerate_sample_collapses 10
    ⟨.ok ⟨100, some 7⟩, [none, some ⟨99, some 0⟩], false, none⟩
    initialEstimatorState ⟨100, some 7⟩ rfl (by decide)

/-- C4: on every poll in which the transaction is found, a receipt exists
and the block number is obtained, `confirmations = currentBlockNumber -
receiptBlockNumber + 1`; receipt status 1 classifies as `confirmed` when
`confirmations ≥ requiredConfirmations` and `confirming` otherwise, any
other receipt status as `failed`; in particular status 1 with
`confirmations = requiredConfirmations - 1` reports `confirming`. -/
theorem receipt_classification (cfg : MonitorConfig) (inp : PollCycle)
    (prev : TransactionInfo) (iv : ℚ) (r : Receipt) (bn : Int)
    (h1 : inp.tx = .ok true) (h2 : inp.receipt = .ok (some r))
    (h3 : inp.blockNumber = .ok bn) :
    (getTransactionStatus cfg inp prev iv).1.confirmations =
      bn - r.blockNumber + 1 ∧
    (r.status = 1 → cfg.requiredConfirmations ≤ bn - r.blockNumber + 1 →
      (getTransactionStatus cfg inp prev iv).1.status = .confirmed) ∧
    (r.status = 1 → bn - r.blockNumber + 1 < cfg.requiredConfirmations →
      (getTransactionStatus cfg inp prev iv).1.status = .confirming) ∧
    (r.status ≠ 1 →
      (getTransactionStatus cfg inp prev iv).1.status = .failed) ∧
    (r.status = 1 → bn - r.blockNumber + 1 = cfg.requiredConfirmations - 1 →
      (getTransactionStatus cfg inp prev iv).1.status = .confirming) := by
  have hstat : (getTransactionStatus cfg inp prev iv).1.status =
      (if r.status = 1 then
        if cfg.requiredConfirmations ≤ bn - r.blockNumber + 1 then
          TxStatus.confirmed
        else TxStatus.confirming
      else TxStatus.failed) := by
    simp [getTransactionStatus, h1, h2, h3]
  refine ⟨by simp [getTransactionStatus, h1, h2, h3], ?_, ?_, ?_, ?_⟩
  · intro hs hc
    rw [hstat, if_pos hs, if_pos hc]
  · intro hs hc
    rw [hstat, if_pos hs, if_neg (by omega)]
  · intro hs
    rw [hstat, if_neg hs]
  · intro hs hc
    rw [hstat, if_pos hs, if_neg (by omega)]

/-- Witness for C4: `requiredConfirmations = 2`, receipt status 1,
`confirmations = 1 = requiredConfirmations - 1` reports `confirming`. -/
theorem receipt_classification_witness :
    (getTransactionStatus ⟨5000, 2⟩
        ⟨.ok true, .ok (some ⟨1, 10, 21000, 5⟩), .ok 10, some none, some none,
          none, 0⟩
        initialTransactionInfo 5000).1.confirmations = 10 - 10 + 1 ∧
    (getTransactionStatus ⟨5000, 2⟩
        ⟨.ok true, .ok (some ⟨1, 10, 21000, 5⟩), .ok 10, some none, some none,
          none, 0⟩
        initialTransactionInfo 5000).1.status = .confirming := by
  have h := receipt_classification ⟨5000, 2⟩
    ⟨.ok true, .ok (some ⟨1, 10, 21000, 5⟩), .ok 10, some none, some none,
      none, 0⟩
    initialTransactionInfo 5000 ⟨1, 10, 21000, 5⟩ 10 rfl rfl rfl
  exact ⟨h.1, h.2.2.2.2 rfl (by decide)⟩

/-- C8: on every poll that finds the transaction and completes,
congestion is `high` exactly when the current max fee exceeds 100
gwei-units (`unknown` exactly on provider failure, `normal` otherwise),
and the new polling interval is `min (previous * 1.5) 30000` under `high`
and the configured initial value otherwise. -/
theorem congestion_controls_interval (cfg : MonitorConfig)
    (inp : PollCycle) (prev : TransactionInfo) (iv : ℚ)
    (h : pollFindsAndCompletes inp) :
    (getTransactionStatus cfg inp prev iv).2 =
      (if getNetworkCongestion inp.congestionFee = .high
       then min (iv * (3 / 2)) 30000
       else cfg.initialPollingInterval) ∧
    (getNetworkCongestion inp.congestionFee = .high ↔
      ∃ f, inp.congestionFee = some (some f) ∧ 100 * 10 ^ 9 < f) ∧
    (getNetworkCongestion inp.congestionFee = .unknown ↔
      inp.congestionFee = none) := by
  obtain ⟨h1, h2⟩ := h
  refine ⟨?_, ?_, ?_⟩
  · cases hr : inp.receipt with
    | error msg => rw [hr] at h2; exact absurd h2 (by simp)
    | ok ro =>
      cases ro with
      | none => simp [getTransactionStatus, h1, hr, nextPollingInterval]
      | some rc =>
        rw [hr] at h2
        obtain ⟨bn, hbn⟩ := h2
        simp [getTransactionStatus, h1, hr, hbn, nextPollingInterval]
  · rcases hf : inp.congestionFee with _ | g
    · simp [getNetworkCongestion]
    · cases g with
      | none => simp [getNetworkCongestion]
      | some f =>
        by_cases hc : 100 * 10 ^ 9 < f
        · simp [getNetworkCongestion, hc]
        · simp [getNetworkCongestion, hc]
  · rcases hf : inp.congestionFee with _ | g
    · simp [getNetworkCongestion]
    · cases g with
      | none => simp [getNetworkCongestion]
      | some f =>
        simp only [getNetworkCongestion]
        split_ifs <;> simp

/-- Witness for C8: a pending poll under a 200 gwei max fee is `high`
congestion and backs the interval off from 5000 to 7500. -/
theorem congestion_controls_interval_witness :
    (getTransactionStatus ⟨5000, 1⟩
        ⟨.ok true, .ok none, .ok 0, some (some 200000000000), some none,
          none, 0⟩
        initialTransactionInfo 5000).2 =
      (if getNetworkCongestion (some (some 200000000000)) = .high
       then min ((5000 : ℚ) * (3 / 2)) 30000
       else (⟨5000, 1⟩ : MonitorConfig).initialPollingInterval) ∧
    (getNetworkCongestion (some (some 200000000000)) = .high ↔
      ∃ f, (some (some 200000000000) : Option (Option Nat)) =
        some (some f) ∧ 100 * 10 ^ 9 < f) ∧
    (getNetworkCongestion (some (some 200000000000)) = .unknown ↔
      (some (some 200000000000) : Option (Option Nat)) = none) :=
  congestion_controls_interval ⟨5000, 1⟩
    ⟨.ok true, .ok none, .ok 0, some (some 200000000000), some none, none, 0⟩
    initialTransactionInfo 5000 ⟨rfl, trivial⟩

/-- C5 counterexample: two successive polls both classify the transaction
as `confirmed`; the status is entered once (the status-change
notification fires only on the first poll), yet the confirmation
notification fires on both polls — twice for one entry — because the
reconciliation effect re-fires it whenever the status is exactly
`confirmed` and `transactionInfo` is a fresh object every poll. -/
theorem confirmation_refires_counterexample :
    (runPolls defaultMonitorConfig [confirmedPoll, confirmedPoll]
        (initialMonitorState defaultMonitorConfig)).2.map
      (fun e => e.statusChange) =
      [some (.confirmed, .pending), none] ∧
    confirmationCount (runPolls defaultMonitorConfig
        [confirmedPoll, confirmedPoll]
        (initialMonitorState defaultMonitorConfig)).2 = 2 := by
  decide

/-- C5 amended: the confirmation notification fires on a poll exactly
when that poll's resulting status is `confirmed` — once at the entering
poll and again on every subsequent poll while the status remains
`confirmed` (the status-change notification, by contrast, fires only on
entry). -/
theorem confirmation_fires_iff_confirmed (cfg : MonitorConfig)
    (inp : PollCycle) (s : MonitorState) :
    (monitorStep cfg inp s).2.confirmation = true ↔
      (monitorStep cfg inp s).1.info.status = .confirmed := by
  simp [monitorStep, pollNotifications]

/-- C9 counterexample: a receiptless poll records mempool position 3;
on the next poll the provider no longer finds the transaction, and the
resulting observation has status `not found` while `mempoolPosition` is
still 3 — the not-found branch spreads the previous state without
clearing the field. -/
theorem mempool_survives_not_found_counterexample :
    (runPolls defaultMonitorConfig [pendingMempoolPoll, vanishedPoll]
        (initialMonitorState defaultMonitorConfig)).1.info.status =
      TxStatus.notFound ∧
    (runPolls defaultMonitorConfig [pendingMempoolPoll, vanishedPoll]
        (initialMonitorState defaultMonitorConfig)).1.info.mempoolPosition =
      some 3 := by
  decide

/-- C9 amended: every poll that observes a receipt clears
`mempoolPosition`, so whenever a poll leaves the observation in status
`confirming`, `confirmed` or `failed` the field is null; the not-found
and error branches, however, preserve the previous value, so it can
remain non-null in those statuses. -/
theorem mempool_cleared_by_receipt (cfg : MonitorConfig) (inp : PollCycle)
    (prev : TransactionInfo) (iv : ℚ)
    (h : (getTransactionStatus cfg inp prev iv).1.status = .confirming ∨
         (getTransactionStatus cfg inp prev iv).1.status = .confirmed ∨
         (getTransactionStatus cfg inp prev iv).1.status = .failed) :
    (getTransactionStatus cfg inp prev iv).1.mempoolPosition = none := by
  rcases htx : inp.tx with msg | found
  · simp [getTransactionStatus, htx, errorPoll] at h
  · cases found with
    | false => simp [getTransactionStatus, htx] at h
    | true =>
      rcases hr : inp.receipt with msg | ro
      · simp [getTransactionStatus, htx, hr, errorPoll] at h
      · cases ro with
        | none => simp [getTransactionStatus, htx, hr] at h
        | some rc =>
          rcases hbn : inp.blockNumber with msg | bn
          · simp [getTransactionStatus, htx, hr, hbn, errorPoll] at h
          · simp [getTransactionStatus, htx, hr, hbn]

/-- Witness for the amended C9 at a poll classified `confirmed`. -/
theorem mempool_cleared_by_receipt_witness :
    (getTransactionStatus defaultMonitorConfig confirmedPoll
        initialTransactionInfo 5000).1.mempoolPosition = none :=
  mempool_cleared_by_receipt defaultMonitorConfig confirmedPoll
    initialTransactionInfo 5000 (Or.inr (Or.inl (by decide)))

/-- The comparator prefers `a` (returns a negative value) exactly when
`a < b`. -/
theorem jsFeeCompare_lt_iff (a b : Nat) : jsFeeCompare a b < 0 ↔ a < b := by
  unfold jsFeeCompare
  split_ifs with h <;> simp [h]

/-- Inserting into a list sorted by a key keeps it sorted by that key,
when insertion is directed by the comparator on keys. -/
theorem sorted_orderedInsert_key {α : Type} (k : α → Nat) (x : α)
    (l : List α) (h : List.Sorted (fun a b => k a ≤ k b) l) :
    List.Sorted (fun a b => k a ≤ k b)
      (l.orderedInsert (fun a b => jsFeeCompare (k a) (k b) < 0) x) := by
  induction l with
  | nil => simp
  | cons b t ih =>
    rw [List.orderedInsert]
    by_cases hc : jsFeeCompare (k x) (k b) < 0
    · rw [if_pos hc]
      have hxb : k x < k b := (jsFeeCompare_lt_iff _ _).1 hc
      rw [List.sorted_cons]
      refine ⟨?_, h⟩
      intro y hy
      rcases List.mem_cons.1 hy with rfl | hyt
      · exact le_of_lt hxb
      · exact le_trans (le_of_lt hxb) ((List.sorted_cons.1 h).1 y hyt)
    · rw [if_neg hc]
      have hbx : k b ≤ k x := by
        have h2 : ¬ k x < k b := fun hlt => hc ((jsFeeCompare_lt_iff _ _).2 hlt)
        omega
      obtain ⟨hb, ht⟩ := List.sorted_cons.1 h
      rw [List.sorted_cons]
      refine ⟨?_, ih ht⟩
      intro y hy
      have hy2 : y ∈ x :: t :=
        (List.perm_orderedInsert (fun a b => jsFeeCompare (k a) (k b) < 0)
          x t).mem_iff.1 hy
      rcases List.mem_cons.1 hy2 with rfl | hyt
      · exact hbx
      · exact hb y hyt

/-- The comparator-directed insertion sort is ascending in the key. -/
theorem sorted_insertionSort_key {α : Type} (k : α → Nat) (l : List α) :
    List.Sorted (fun a b => k a ≤ k b)
      (List.insertionSort (fun a b => jsFeeCompare (k a) (k b) < 0) l) := by
  induction l with
  | nil => simp
  | cons b t ih =>
    rw [List.insertionSort]
    exact sorted_orderedInsert_key k b _ ih

/-- Supporting fact for the sort step (the tie-order half of the
stability question is implementation-defined in ECMAScript for this
never-zero comparator and is therefore not settled here): on the fee
values the cycle actually uses, the sorted sample is an ascending
permutation of the input — the value-level outcome every engine
resolution of the comparator produces, since equal `Nat` values are
indistinguishable. -/
theorem fee_sort_values_ascending (l : List Nat) :
    List.Sorted (fun a b => a ≤ b) (sortFees l) ∧ (sortFees l).Perm l := by
  unfold sortFees
  exact ⟨sorted_insertionSort_key (fun a => a) l, List.perm_insertionSort _ _⟩

end Web3Hooks
